import Mathlib

/-!
Verification of the statement/reporting core of the jaygogams repository:
the transaction aggregation and statement-export pipeline of
`src/pages/Statements.tsx` and the customer order history of
`src/components/Customers/CustomerDetailsModal.tsx`.

Monetary amounts (JavaScript numbers holding currency values) are embedded
as rationals; ISO-8601 `yyyy-MM-dd` date strings are parsed into civil
dates and compared through their epoch timestamps, exactly as the source
compares `parseISO(x).getTime()` values.
-/

namespace Jaygogams

/-- A civil calendar date, as produced by parsing a `yyyy-MM-dd` string. -/
structure Date where
  year : Int
  month : Int
  day : Int
deriving DecidableEq

/-- Gregorian leap-year rule. -/
def isLeapYear (y : Int) : Bool :=
  (y % 4 == 0 && y % 100 != 0) || y % 400 == 0

/-- Number of days in a month of a given year. -/
def daysInMonth (y m : Int) : Int :=
  if m = 2 then (if isLeapYear y then 29 else 28)
  else if m = 4 ∨ m = 6 ∨ m = 9 ∨ m = 11 then 30
  else 31

/-- Days since the Unix epoch (1970-01-01) of a civil date
(standard civil-from-days conversion, floor divisions made explicit). -/
def daysFromCivil (dt : Date) : Int :=
  let y := if dt.month ≤ 2 then dt.year - 1 else dt.year
  let era := Int.fdiv y 400
  let yoe := y - era * 400
  let mp := Int.emod (dt.month + 9) 12
  let doy := (153 * mp + 2) / 5 + dt.day - 1
  let doe := yoe * 365 + yoe / 4 - yoe / 100 + doy
  era * 146097 + doe - 719468

/-- Civil date of a days-since-epoch count (inverse conversion). -/
def civilFromDays (z : Int) : Date :=
  let u := z + 719468
  let era := Int.fdiv u 146097
  let doe := u - era * 146097
  let yoe := (doe - doe / 1460 + doe / 36524 - doe / 146096) / 365
  let y := yoe + era * 400
  let doy := doe - (365 * yoe + yoe / 4 - yoe / 100)
  let mp := (5 * doy + 2) / 153
  let d := doy - (153 * mp + 2) / 5 + 1
  let m := if mp < 10 then mp + 3 else mp - 9
  { year := if m ≤ 2 then y + 1 else y, month := m, day := d }

/-- Epoch milliseconds of a date at midnight, the value the source reads as
`parseISO(dateString).getTime()`. -/
def getTime (dt : Date) : Int := 86400000 * daysFromCivil dt

/-- Day of week, `0` = Sunday through `6` = Saturday (1970-01-01 was a
Thursday), as JavaScript `Date.getDay` reports it. -/
def dayOfWeek (dt : Date) : Int := Int.emod (daysFromCivil dt + 4) 7

/-- Start of the containing calendar week (date-fns `startOfWeek` with its
default week-start convention `weekStartsOn = 0`, Sunday). -/
def startOfWeek (dt : Date) : Date :=
  civilFromDays (daysFromCivil dt - dayOfWeek dt)

/-- End of the containing calendar week (date-fns `endOfWeek`, Saturday under
the default week-start convention). -/
def endOfWeek (dt : Date) : Date :=
  civilFromDays (daysFromCivil dt - dayOfWeek dt + 6)

/-- First day of the containing calendar month (date-fns `startOfMonth`). -/
def startOfMonth (dt : Date) : Date := { dt with day := 1 }

/-- Last day of the containing calendar month (date-fns `endOfMonth`). -/
def endOfMonth (dt : Date) : Date := { dt with day := daysInMonth dt.year dt.month }

/-- Numeric value of a decimal digit character. -/
def digitVal (c : Char) : Int := Int.ofNat (c.toNat - 48)

/-- Parse a strict `yyyy-MM-dd` string into a civil date, validating month and
day ranges; `none` corresponds to JavaScript's `Invalid Date`. -/
def parseYMD (s : String) : Option Date :=
  match s.data with
  | [y1, y2, y3, y4, h1, m1, m2, h2, d1, d2] =>
    if y1.isDigit && y2.isDigit && y3.isDigit && y4.isDigit && h1 == '-' &&
        m1.isDigit && m2.isDigit && h2 == '-' && d1.isDigit && d2.isDigit then
      let y := 1000 * digitVal y1 + 100 * digitVal y2 + 10 * digitVal y3 + digitVal y4
      let m := 10 * digitVal m1 + digitVal m2
      let d := 10 * digitVal d1 + digitVal d2
      if 1 ≤ m ∧ m ≤ 12 ∧ 1 ≤ d ∧ d ≤ daysInMonth y m then some ⟨y, m, d⟩ else none
    else none
  | _ => none

/-- Sort key the aggregator derives from a date string:
`parseISO(s).getTime()` (defaulted on unparsable strings, which the sorting
claims exclude by hypothesis). -/
def dateKey (s : String) : Int := ((parseYMD s).map getTime).getD 0

/-- Left-pad the decimal form of a natural number with zeros. -/
def padNat (len : Nat) (n : Nat) : String :=
  let s := toString n
  String.mk (List.replicate (len - s.length) '0') ++ s

/-- Render a date in `yyyy-MM-dd` form (date-fns `format` pattern used for
filter bounds and CSV date cells). -/
def formatYMD (dt : Date) : String :=
  padNat 4 dt.year.toNat ++ "-" ++ padNat 2 dt.month.toNat ++ "-" ++ padNat 2 dt.day.toNat

/-- English month abbreviation used by the `MMM` pattern. -/
def monthAbbrev (m : Int) : String :=
  if m = 1 then "Jan" else if m = 2 then "Feb" else if m = 3 then "Mar"
  else if m = 4 then "Apr" else if m = 5 then "May" else if m = 6 then "Jun"
  else if m = 7 then "Jul" else if m = 8 then "Aug" else if m = 9 then "Sep"
  else if m = 10 then "Oct" else if m = 11 then "Nov" else if m = 12 then "Dec"
  else ""

/-- Render a date in `MMM dd, yyyy` form (table rows and PDF period header). -/
def formatMMMddyyyy (dt : Date) : String :=
  monthAbbrev dt.month ++ " " ++ padNat 2 dt.day.toNat ++ ", " ++ padNat 4 dt.year.toNat

/-- Render a date in `dd/MM/yyyy` form (PDF table rows). -/
def formatDDMMyyyy (dt : Date) : String :=
  padNat 2 dt.day.toNat ++ "/" ++ padNat 2 dt.month.toNat ++ "/" ++ padNat 4 dt.year.toNat

/-- Re-render a stored date string with a display pattern, as the source's
`format(new Date(s), pattern)` does; on an unparsable string date-fns throws
`RangeError: Invalid time value`, which the embedding marks with that text. -/
def reformat (pattern : Date → String) (s : String) : String :=
  match parseYMD s with
  | some dt => pattern dt
  | none => "Invalid time value"

/-- Exactly-two-digit decimal rendering of `n % 100`, the fractional part
produced by `toFixed(2)`. -/
def twoDigits (n : Nat) : String :=
  String.mk [Char.ofNat (48 + n / 10 % 10), Char.ofNat (48 + n % 10)]

/-- JavaScript's `Number.prototype.toFixed(2)` on a currency amount: round to
hundredths and print with exactly two decimal places. -/
def toFixed2 (q : ℚ) : String :=
  let c : Int := round (q * 100)
  (if c < 0 then "-" else "") ++ toString (c.natAbs / 100) ++ ("." ++ twoDigits c.natAbs)

/-- Decimal rendering of a JavaScript number interpolated into a template
string (integral values print without a decimal point). -/
def jsNumToString (q : ℚ) : String :=
  if q.den = 1 then toString q.num else toString q

/-- A line item of an order (`src/types`): product name, unit price, quantity. -/
structure OrderItem where
  productName : String
  price : ℚ
  quantity : ℚ
deriving DecidableEq

/-- An order record as the Statements page and the customer modal read it. -/
structure Order where
  id : String
  customerId : String
  customerName : String
  orderDate : String
  status : String
  items : List OrderItem
  totalAmount : ℚ
deriving DecidableEq

/-- A payment record as the Statements page reads it. -/
structure Payment where
  customerId : String
  customerName : String
  paymentDate : String
  amount : ℚ
deriving DecidableEq

/-- A customer record as the details modal reads it. -/
structure Customer where
  id : String
  name : String
  phone : String
  address : String
  totalAmount : ℚ
  paidAmount : ℚ
  pendingBalance : ℚ
deriving DecidableEq

/-- Tag of a derived transaction: order-billing event or payment-received
event (`type: 'order' | 'payment'` in `Statements.tsx`). -/
inductive TxType where
  | order
  | payment
deriving DecidableEq

/-- The derived `Transaction` interface of `Statements.tsx`. -/
structure Transaction where
  date : String
  type : TxType
  description : String
  billed : ℚ
  paid : ℚ
  customerName : String
deriving DecidableEq

/-- The filter state of the Statements page. -/
structure Filters where
  customer : String
  dateFrom : String
  dateTo : String
  period : String
deriving DecidableEq

/-- Description string built for an order transaction:
`Order: ${items.map(i => qty + "x " + name).join(', ')}`. -/
def orderDescription (o : Order) : String :=
  "Order: " ++ String.intercalate ", "
    (o.items.map (fun i => jsNumToString i.quantity ++ "x " ++ i.productName))

/-- Map an order into a transaction (`Statements.tsx` lines 37-44). -/
def orderTransaction (o : Order) : Transaction :=
  { date := o.orderDate, type := .order, description := orderDescription o,
    billed := o.totalAmount, paid := 0, customerName := o.customerName }

/-- Map a payment into a transaction (`Statements.tsx` lines 45-52). -/
def paymentTransaction (p : Payment) : Transaction :=
  { date := p.paymentDate, type := .payment, description := "Payment received",
    billed := 0, paid := p.amount, customerName := p.customerName }

/-- The concatenated order/payment transactions before sorting. -/
def combinedTransactions (os : List Order) (ps : List Payment) : List Transaction :=
  os.map orderTransaction ++ ps.map paymentTransaction

/-- Comparison the sort uses: the comparator
`(a, b) => parseISO(a.date).getTime() - parseISO(b.date).getTime()` puts `a`
no later than `b` exactly when `a`'s timestamp is at most `b`'s. -/
def txDateLe (a b : Transaction) : Bool :=
  dateKey a.date ≤ dateKey b.date

/-- The aggregated transaction list: combined orders and payments, stably
sorted ascending by parsed date (`Statements.tsx` lines 36-55; JavaScript
`Array.prototype.sort` is stable). -/
def transactions (os : List Order) (ps : List Payment) : List Transaction :=
  (combinedTransactions os ps).mergeSort txDateLe

/-- `transactions.reduce((sum, tx) => sum + tx.billed, 0)`. -/
def totalBilled (txs : List Transaction) : ℚ :=
  txs.foldl (fun sum tx => sum + tx.billed) 0

/-- `transactions.reduce((sum, tx) => sum + tx.paid, 0)`. -/
def totalPaid (txs : List Transaction) : ℚ :=
  txs.foldl (fun sum tx => sum + tx.paid) 0

/-- Query parameters the Statements page passes to the data store; an empty
customer selection becomes `undefined` (`filters.customer || undefined`). -/
structure FilterParams where
  customer : Option String
  dateFrom : String
  dateTo : String
deriving DecidableEq

/-- Build the store query parameters from the page's filter state. -/
def filterParams (f : Filters) : FilterParams :=
  { customer := if f.customer = "" then none else some f.customer,
    dateFrom := f.dateFrom, dateTo := f.dateTo }

/-- Modelled from the spec: inclusive date-range test of the Data Store
(`DataContext` is not part of the excerpt); a record's date lies in
`[dateFrom, dateTo]`, dates compared at date-only granularity. -/
def dateInRange (p : FilterParams) (d : String) : Bool :=
  dateKey p.dateFrom ≤ dateKey d && dateKey d ≤ dateKey p.dateTo

/-- Modelled from the spec: customer match of the Data Store query; no
customer filter means all customers match. -/
def matchesCustomer (p : FilterParams) (cid : String) : Bool :=
  match p.customer with
  | none => true
  | some c => cid == c

/-- Modelled from the spec: `getFilteredOrders` of the Data Store
(`src/contexts/DataContext`, not in the excerpt) returns the orders whose
dates fall within the inclusive range and whose customer matches when
specified. -/
def getFilteredOrders (p : FilterParams) (orders : List Order) : List Order :=
  orders.filter (fun o => matchesCustomer p o.customerId && dateInRange p o.orderDate)

/-- Modelled from the spec: `getFilteredPayments` of the Data Store, the
payment analogue of `getFilteredOrders`. -/
def getFilteredPayments (p : FilterParams) (payments : List Payment) : List Payment :=
  payments.filter (fun q => matchesCustomer p q.customerId && dateInRange p q.paymentDate)

/-- `handlePeriodChange` of `Statements.tsx` (lines 58-82): quick-period
shortcut applied to the filter state at the current date. -/
def handlePeriodChange (today : Date) (period : String) (f : Filters) : Filters :=
  let dateTo0 := formatYMD today
  let fromTo : String × String :=
    if period = "today" then (formatYMD today, dateTo0)
    else if period = "week" then (formatYMD (startOfWeek today), formatYMD (endOfWeek today))
    else if period = "month" then (formatYMD (startOfMonth today), formatYMD (endOfMonth today))
    else (f.dateFrom, f.dateTo)
  { f with period := period, dateFrom := fromTo.1, dateTo := fromTo.2 }

/-- Manual edit of the From Date input
(`setFilters({ ...filters, dateFrom: value, period: 'custom' })`). -/
def setDateFrom (v : String) (f : Filters) : Filters :=
  { f with dateFrom := v, period := "custom" }

/-- Manual edit of the To Date input
(`setFilters({ ...filters, dateTo: value, period: 'custom' })`). -/
def setDateTo (v : String) (f : Filters) : Filters :=
  { f with dateTo := v, period := "custom" }

/-- The condition gating the customer-name column in the PDF and CSV
(`const includeCustomerName = filters.customer === ''`). -/
def includeCustomerName (f : Filters) : Bool :=
  f.customer == ""

/-- Billed cell of an on-screen table row:
`tx.billed > 0 ? "₹" + tx.billed.toFixed(2) : '-'`. -/
def screenBilledCell (tx : Transaction) : String :=
  if 0 < tx.billed then "₹" ++ toFixed2 tx.billed else "-"

/-- Paid cell of an on-screen table row. -/
def screenPaidCell (tx : Transaction) : String :=
  if 0 < tx.paid then "₹" ++ toFixed2 tx.paid else "-"

/-- Billed cell of a PDF body row (same conditional as the table). -/
def pdfBilledCell (tx : Transaction) : String :=
  if 0 < tx.billed then "₹" ++ toFixed2 tx.billed else "-"

/-- Paid cell of a PDF body row. -/
def pdfPaidCell (tx : Transaction) : String :=
  if 0 < tx.paid then "₹" ++ toFixed2 tx.paid else "-"

/-- Header cells of the on-screen table; the Customer column is rendered
under `filters.customer === ''` (`Statements.tsx` line 325). -/
def screenHeaderCells (f : Filters) : List String :=
  ["Date"] ++ (if f.customer == "" then ["Customer"] else [])
    ++ ["Description", "Billed", "Paid"]

/-- One on-screen table row (`Statements.tsx` lines 332-351). -/
def screenRow (f : Filters) (tx : Transaction) : List String :=
  [reformat formatMMMddyyyy tx.date]
    ++ (if f.customer == "" then [tx.customerName] else [])
    ++ [tx.description, screenBilledCell tx, screenPaidCell tx]

/-- The transactions section of the page: the explicit empty state when the
list is empty, otherwise the table. -/
inductive TableView where
  | emptyState (title : String) (subtitle : String)
  | table (header : List String) (rows : List (List String))
deriving DecidableEq

/-- Render the transactions section (`Statements.tsx` lines 313-355). -/
def transactionsSection (f : Filters) (txs : List Transaction) : TableView :=
  if txs.length = 0 then
    .emptyState "No transactions found" "Try adjusting your filters to see results"
  else
    .table (screenHeaderCells f) (txs.map (screenRow f))

/-- The three summary cards: total amount, received amount, pending amount
(`Statements.tsx` lines 272-300). -/
def summaryCards (txs : List Transaction) : String × String × String :=
  ("₹" ++ toFixed2 (totalBilled txs),
   "₹" ++ toFixed2 (totalPaid txs),
   "₹" ++ toFixed2 (totalBilled txs - totalPaid txs))

/-- Head row of the PDF table (`Statements.tsx` line 104). -/
def pdfHead (f : Filters) : List String :=
  ["Date"] ++ (if includeCustomerName f then ["Customer"] else [])
    ++ ["Description", "Billed", "Paid"]

/-- One body row of the PDF table (`Statements.tsx` lines 105-111). -/
def pdfRow (f : Filters) (tx : Transaction) : List String :=
  [reformat formatDDMMyyyy tx.date]
    ++ (if includeCustomerName f then [tx.customerName] else [])
    ++ [tx.description, pdfBilledCell tx, pdfPaidCell tx]

/-- Footer lines of the PDF (`Statements.tsx` lines 127-130). -/
def pdfFooterLines (txs : List Transaction) : List String :=
  ["Total Amount: ₹" ++ toFixed2 (totalBilled txs),
   "Received Amount: ₹" ++ toFixed2 (totalPaid txs),
   "Pending Amount: ₹" ++ toFixed2 (totalBilled txs - totalPaid txs)]

/-- File name the PDF is saved under (`Statements.tsx` line 132). -/
def pdfFileName (f : Filters) : String :=
  "account-statement-" ++ f.dateFrom ++ "-to-" ++ f.dateTo ++ ".pdf"

/-- Escape a CSV field's content: `String(cell).replace(/"/g, '""')`. -/
def escapeQuotes (s : String) : String :=
  String.mk (s.data.foldr (fun c acc => if c = '"' then '"' :: '"' :: acc else c :: acc) [])

/-- Header row of the exported CSV (`Statements.tsx` line 137). -/
def csvHeaders (f : Filters) : List String :=
  ["Date"] ++ (if includeCustomerName f then ["Customer"] else [])
    ++ ["Description", "Billed", "Paid"]

/-- One CSV data row (`Statements.tsx` lines 139-145); billed and paid always
carry the literal `toFixed(2)` value. -/
def csvRow (f : Filters) (tx : Transaction) : List String :=
  [reformat formatYMD tx.date]
    ++ (if includeCustomerName f then [tx.customerName] else [])
    ++ [tx.description, toFixed2 tx.billed, toFixed2 tx.paid]

/-- Totals row of the exported CSV (`Statements.tsx` lines 147-153). -/
def csvTotalRow (f : Filters) (txs : List Transaction) : List String :=
  [""] ++ (if includeCustomerName f then [""] else [])
    ++ ["Total", toFixed2 (totalBilled txs), toFixed2 (totalPaid txs)]

/-- The serialized CSV text (`Statements.tsx` lines 155-157):
`[headers, ...csvData, [], totalRow].map(row => row.map(quote).join(',')).join('\n')`. -/
def csvContent (f : Filters) (txs : List Transaction) : String :=
  String.intercalate "\n"
    (((csvHeaders f :: txs.map (csvRow f)) ++ [[], csvTotalRow f txs]).map
      (fun row => String.intercalate ","
        (row.map (fun cell => "\"" ++ escapeQuotes cell ++ "\""))))

/-- File name the CSV download is given (`Statements.tsx` line 163). -/
def csvFileName (f : Filters) : String :=
  "account-statement-" ++ f.dateFrom ++ "-to-" ++ f.dateTo ++ ".csv"

/-- Comparison used by the customer modal's sort: the comparator
`(a, b) => parseISO(b.orderDate).getTime() - parseISO(a.orderDate).getTime()`
puts `a` no later than `b` exactly when `b`'s timestamp is at most `a`'s. -/
def orderDateGe (a b : Order) : Bool :=
  dateKey b.orderDate ≤ dateKey a.orderDate

/-- `customerOrders` of `CustomerDetailsModal.tsx` (lines 16-18): the orders
of one customer, stably sorted descending by order date. -/
def customerOrders (c : Customer) (orders : List Order) : List Order :=
  (orders.filter (fun o => o.customerId == c.id)).mergeSort orderDateGe

/-- One rendered line item of the modal's order card
(`{quantity}x {productName} (@ ₹{price})` with its line amount). -/
def itemLine (i : OrderItem) : String × String :=
  (jsNumToString i.quantity ++ "x " ++ i.productName ++ " (@ ₹" ++ toFixed2 i.price ++ ")",
   "₹" ++ toFixed2 (i.price * i.quantity))

/-- A rendered order card of the modal's Order History section. -/
structure OrderCard where
  heading : String
  status : String
  itemRows : List (String × String)
  totalLine : String
deriving DecidableEq

/-- Render one order card (`CustomerDetailsModal.tsx` lines 82-105). -/
def renderOrderCard (o : Order) : OrderCard :=
  { heading := "Order on " ++ reformat formatMMMddyyyy o.orderDate,
    status := o.status,
    itemRows := o.items.map itemLine,
    totalLine := "Order Total: ₹" ++ toFixed2 o.totalAmount }

/-- The modal's Order History section for one customer. -/
def orderHistory (c : Customer) (orders : List Order) : List OrderCard :=
  (customerOrders c orders).map renderOrderCard

/-! ### Helper lemmas -/

lemma txDateLe_trans : ∀ a b c : Transaction, txDateLe a b → txDateLe b c → txDateLe a c := by
  intro a b c hab hbc
  simp only [txDateLe, decide_eq_true_eq] at *
  exact le_trans hab hbc

lemma txDateLe_total : ∀ a b : Transaction, txDateLe a b || txDateLe b a := by
  intro a b
  simp only [txDateLe, Bool.or_eq_true, decide_eq_true_eq]
  exact le_total _ _

lemma orderDateGe_trans : ∀ a b c : Order, orderDateGe a b → orderDateGe b c → orderDateGe a c := by
  intro a b c hab hbc
  simp only [orderDateGe, decide_eq_true_eq] at *
  exact le_trans hbc hab

lemma orderDateGe_total : ∀ a b : Order, orderDateGe a b || orderDateGe b a := by
  intro a b
  simp only [orderDateGe, Bool.or_eq_true, decide_eq_true_eq]
  exact le_total _ _

lemma foldl_add_eq (g : Transaction → ℚ) :
    ∀ (txs : List Transaction) (a : ℚ),
      txs.foldl (fun sum tx => sum + g tx) a = a + (txs.map g).sum := by
  intro txs
  induction txs with
  | nil => intro a; simp
  | cons hd tl ih =>
    intro a
    simp only [List.foldl_cons, List.map_cons, List.sum_cons, ih]
    ring

lemma totalBilled_eq_sum (txs : List Transaction) :
    totalBilled txs = (txs.map Transaction.billed).sum :=
  by simpa using foldl_add_eq Transaction.billed txs 0

lemma totalPaid_eq_sum (txs : List Transaction) :
    totalPaid txs = (txs.map Transaction.paid).sum :=
  by simpa using foldl_add_eq Transaction.paid txs 0

lemma transactions_perm (os : List Order) (ps : List Payment) :
    List.Perm (transactions os ps) (combinedTransactions os ps) :=
  List.mergeSort_perm _ _

lemma totalBilled_transactions (os : List Order) (ps : List Payment) :
    totalBilled (transactions os ps) = (os.map Order.totalAmount).sum := by
  rw [totalBilled_eq_sum, ((transactions_perm os ps).map Transaction.billed).sum_eq]
  simp only [combinedTransactions, List.map_append, List.sum_append,
    List.map_map]
  have h1 : os.map (Transaction.billed ∘ orderTransaction) = os.map Order.totalAmount := by
    simp [Function.comp_def, orderTransaction]
  have h2 : (ps.map (Transaction.billed ∘ paymentTransaction)).sum = 0 := by
    apply List.sum_eq_zero
    intro x hx
    simp only [List.mem_map] at hx
    obtain ⟨p, _, rfl⟩ := hx
    rfl
  rw [h1, h2, add_zero]

lemma totalPaid_transactions (os : List Order) (ps : List Payment) :
    totalPaid (transactions os ps) = (ps.map Payment.amount).sum := by
  rw [totalPaid_eq_sum, ((transactions_perm os ps).map Transaction.paid).sum_eq]
  simp only [combinedTransactions, List.map_append, List.sum_append,
    List.map_map]
  have h1 : (os.map (Transaction.paid ∘ orderTransaction)).sum = 0 := by
    apply List.sum_eq_zero
    intro x hx
    simp only [List.mem_map] at hx
    obtain ⟨o, _, rfl⟩ := hx
    rfl
  have h2 : ps.map (Transaction.paid ∘ paymentTransaction) = ps.map Payment.amount := by
    simp [Function.comp_def, paymentTransaction]
  rw [h1, h2, zero_add]

lemma toFixed2_zero : toFixed2 0 = "0.00" := by
  have h : round ((0 : ℚ) * 100) = 0 := by norm_num
  simp only [toFixed2, h]
  rfl

lemma rupee_ne_dash (s : String) : ("₹" ++ s) ≠ "-" := by
  intro h
  rw [String.ext_iff] at h
  simp at h

/-! ### Concrete fixtures used by the witness theorems -/

/-- A concrete order used by witnesses. -/
def sampleOrder : Order :=
  { id := "o1", customerId := "c1", customerName := "Asha",
    orderDate := "2024-01-05", status := "pending",
    items := [{ productName := "Milk", price := 50, quantity := 2 }],
    totalAmount := 100 }

/-- A concrete payment used by witnesses, dated like `sampleOrder`. -/
def samplePayment : Payment :=
  { customerId := "c1", customerName := "Asha",
    paymentDate := "2024-01-05", amount := 60 }

/-- A concrete filter state used by witnesses. -/
def sampleFilters : Filters :=
  { customer := "", dateFrom := "2024-01-01", dateTo := "2024-01-31", period := "month" }

/-- A concrete customer used by witnesses. -/
def sampleCustomer : Customer :=
  { id := "c1", name := "Asha", phone := "9900000000", address := "Street 1",
    totalAmount := 100, paidAmount := 60, pendingBalance := 40 }

/-! ### Claim theorems -/

/-- C1: for every filter window, the `totalBilled` computed by the Statements
page equals the sum of `totalAmount` over the orders returned by
`getFilteredOrders` for that window, and `totalPaid` equals the sum of
`amount` over the payments returned by `getFilteredPayments`: each order
contributes its `totalAmount` as billed with paid 0, each payment its
`amount` as paid with billed 0, and the stable sort permutes without
changing either sum. -/
theorem totals_match_filtered_store (f : Filters)
    (allOrders : List Order) (allPayments : List Payment) :
    totalBilled (transactions (getFilteredOrders (filterParams f) allOrders)
        (getFilteredPayments (filterParams f) allPayments))
      = ((getFilteredOrders (filterParams f) allOrders).map Order.totalAmount).sum
    ∧ totalPaid (transactions (getFilteredOrders (filterParams f) allOrders)
        (getFilteredPayments (filterParams f) allPayments))
      = ((getFilteredPayments (filterParams f) allPayments).map Payment.amount).sum :=
  ⟨totalBilled_transactions _ _, totalPaid_transactions _ _⟩

/-- C2: for every input order list and payment list whose dates are valid
ISO-8601 `yyyy-MM-dd` strings, the aggregated transaction sequence is sorted
non-decreasing by parsed date, and when an order and a payment share a date
the order transaction (listed first in the concatenation) still precedes the
payment transaction in the sorted output (stability). -/
theorem transactions_sorted_and_stable (os : List Order) (ps : List Payment)
    (hos : ∀ o ∈ os, (parseYMD o.orderDate).isSome = true)
    (hps : ∀ p ∈ ps, (parseYMD p.paymentDate).isSome = true) :
    (transactions os ps).Pairwise (fun a b => dateKey a.date ≤ dateKey b.date)
    ∧ ∀ o ∈ os, ∀ p ∈ ps, dateKey o.orderDate = dateKey p.paymentDate →
        List.Sublist [orderTransaction o, paymentTransaction p] (transactions os ps) := by
  constructor
  · have h := List.sorted_mergeSort txDateLe_trans txDateLe_total
      (combinedTransactions os ps)
    exact h.imp (by intro a b hab; simpa [txDateLe] using hab)
  · intro o ho p hp hdate
    apply List.pair_sublist_mergeSort txDateLe_trans txDateLe_total
    · simp only [txDateLe, orderTransaction, paymentTransaction, decide_eq_true_eq]
      exact le_of_eq hdate
    · have h1 : List.Sublist [orderTransaction o] (os.map orderTransaction) :=
        List.singleton_sublist.mpr (List.mem_map_of_mem _ ho)
      have h2 : List.Sublist [paymentTransaction p] (ps.map paymentTransaction) :=
        List.singleton_sublist.mpr (List.mem_map_of_mem _ hp)
      exact h1.append h2

/-- Witness for C2 at one concrete order and one concrete payment sharing the
date 2024-01-05. -/
theorem transactions_sorted_and_stable_witness :
    (transactions [sampleOrder] [samplePayment]).Pairwise
        (fun a b => dateKey a.date ≤ dateKey b.date)
    ∧ List.Sublist [orderTransaction sampleOrder, paymentTransaction samplePayment]
        (transactions [sampleOrder] [samplePayment]) := by
  have h := transactions_sorted_and_stable [sampleOrder] [samplePayment]
    (by decide) (by decide)
  exact ⟨h.1, h.2 sampleOrder (by simp) samplePayment (by simp) (by decide)⟩

/-- C3: the pending amount displayed in the summary card and the PDF footer
is exactly `totalBilled - totalPaid`, with no clamping: when `totalPaid`
exceeds `totalBilled` the pending value is negative and still rendered. -/
theorem pending_amount_unclamped (txs : List Transaction) :
    (summaryCards txs).2.2 = "₹" ++ toFixed2 (totalBilled txs - totalPaid txs)
    ∧ (pdfFooterLines txs).getLast? =
        some ("Pending Amount: ₹" ++ toFixed2 (totalBilled txs - totalPaid txs))
    ∧ (totalBilled txs < totalPaid txs → totalBilled txs - totalPaid txs < 0) :=
  ⟨rfl, rfl, fun h => sub_neg.mpr h⟩

/-- Witness for C3 at a window holding one payment and no order, where the
pending amount is negative. -/
theorem pending_amount_unclamped_witness :
    totalBilled [paymentTransaction samplePayment]
        < totalPaid [paymentTransaction samplePayment]
    ∧ totalBilled [paymentTransaction samplePayment]
        - totalPaid [paymentTransaction samplePayment] < 0 := by
  have hlt : totalBilled [paymentTransaction samplePayment]
      < totalPaid [paymentTransaction samplePayment] := by
    norm_num [totalBilled, totalPaid, paymentTransaction, samplePayment]
  exact ⟨hlt, (pending_amount_unclamped [paymentTransaction samplePayment]).2.2 hlt⟩

/-- C4: the exported CSV is exactly one header row, one row per transaction
in order, one blank separator row, and one totals row whose billed and paid
fields are `totalBilled` and `totalPaid` to two decimals; every field is
wrapped in double quotes with internal quotes escaped by doubling, fields
joined by commas, rows by newlines, and the download file is named
`account-statement-<dateFrom>-to-<dateTo>.csv`. -/
theorem csv_export_shape (f : Filters) (txs : List Transaction) :
    (∃ rows : List (List String),
      csvContent f txs = String.intercalate "\n"
          (rows.map (fun row => String.intercalate ","
            (row.map (fun cell => "\"" ++ escapeQuotes cell ++ "\""))))
      ∧ rows.length = txs.length + 3
      ∧ rows.head? = some (csvHeaders f)
      ∧ (∀ i, i < txs.length → rows[i + 1]? = (txs[i]?).map (csvRow f))
      ∧ rows[txs.length + 1]? = some []
      ∧ rows[txs.length + 2]? = some (csvTotalRow f txs)
      ∧ (csvTotalRow f txs).getLast? = some (toFixed2 (totalPaid txs))
      ∧ (csvTotalRow f txs)[(csvTotalRow f txs).length - 2]?
          = some (toFixed2 (totalBilled txs)))
    ∧ csvFileName f = "account-statement-" ++ f.dateFrom ++ "-to-" ++ f.dateTo ++ ".csv" := by
  refine ⟨⟨(csvHeaders f :: txs.map (csvRow f)) ++ [[], csvTotalRow f txs],
    rfl, ?_, ?_, ?_, ?_, ?_, ?_, ?_⟩, rfl⟩
  · simp only [List.length_append, List.length_cons, List.length_map]
    simp
  · rfl
  · intro i hi
    rw [List.cons_append, List.getElem?_cons_succ,
      List.getElem?_append_left (by simpa using hi), List.getElem?_map]
  · rw [List.cons_append, List.getElem?_cons_succ,
      List.getElem?_append_right (by simp)]
    simp
  · rw [List.cons_append, List.getElem?_cons_succ,
      List.getElem?_append_right (by simp)]
    simp
  · rcases h : includeCustomerName f with hv | hv <;>
      simp [csvTotalRow, h]
  · rcases h : includeCustomerName f with hv | hv <;>
      simp [csvTotalRow, h]

/-- Witness for C4 at a concrete filter and a one-transaction list. -/
theorem csv_export_shape_witness :
    (∃ rows : List (List String),
      csvContent sampleFilters [orderTransaction sampleOrder] = String.intercalate "\n"
          (rows.map (fun row => String.intercalate ","
            (row.map (fun cell => "\"" ++ escapeQuotes cell ++ "\""))))
      ∧ rows.length = [orderTransaction sampleOrder].length + 3
      ∧ rows.head? = some (csvHeaders sampleFilters)
      ∧ (∀ i, i < [orderTransaction sampleOrder].length →
          rows[i + 1]? = ([orderTransaction sampleOrder][i]?).map (csvRow sampleFilters))
      ∧ rows[[orderTransaction sampleOrder].length + 1]? = some []
      ∧ rows[[orderTransaction sampleOrder].length + 2]?
          = some (csvTotalRow sampleFilters [orderTransaction sampleOrder])
      ∧ (csvTotalRow sampleFilters [orderTransaction sampleOrder]).getLast?
          = some (toFixed2 (totalPaid [orderTransaction sampleOrder]))
      ∧ (csvTotalRow sampleFilters [orderTransaction sampleOrder])[
            (csvTotalRow sampleFilters [orderTransaction sampleOrder]).length - 2]?
          = some (toFixed2 (totalBilled [orderTransaction sampleOrder])))
    ∧ csvFileName sampleFilters
      = "account-statement-" ++ sampleFilters.dateFrom ++ "-to-"
          ++ sampleFilters.dateTo ++ ".csv" :=
  csv_export_shape sampleFilters [orderTransaction sampleOrder]

/-- C5: the customer-name column is present in the on-screen table header,
the PDF head, and the CSV header exactly when the active filter's customer id
is the empty string; when a customer is pinned it is absent from all three,
and every data row has as many cells as its header. -/
theorem customer_column_iff_unfiltered (f : Filters) (tx : Transaction) :
    ("Customer" ∈ screenHeaderCells f ↔ f.customer = "")
    ∧ ("Customer" ∈ pdfHead f ↔ f.customer = "")
    ∧ ("Customer" ∈ csvHeaders f ↔ f.customer = "")
    ∧ (screenRow f tx).length = (screenHeaderCells f).length
    ∧ (pdfRow f tx).length = (pdfHead f).length
    ∧ (csvRow f tx).length = (csvHeaders f).length := by
  by_cases h : f.customer = "" <;>
    simp [screenHeaderCells, pdfHead, csvHeaders, screenRow, pdfRow, csvRow,
      includeCustomerName, h]

/-- C6: a zero billed or paid amount renders as the placeholder dash in the
on-screen table and the PDF body, while the CSV billed and paid fields always
carry the literal `toFixed(2)` value (zero becomes "0.00"), and every
`toFixed2` rendering carries exactly two decimal places. -/
theorem zero_dash_views_literal_csv (f : Filters) (tx : Transaction) :
    (tx.billed = 0 → screenBilledCell tx = "-" ∧ pdfBilledCell tx = "-")
    ∧ (tx.paid = 0 → screenPaidCell tx = "-" ∧ pdfPaidCell tx = "-")
    ∧ (csvRow f tx).getLast? = some (toFixed2 tx.paid)
    ∧ (csvRow f tx)[(csvRow f tx).length - 2]? = some (toFixed2 tx.billed)
    ∧ toFixed2 0 = "0.00"
    ∧ (∀ q : ℚ, ∃ intPart : String,
        toFixed2 q = intPart ++ ("." ++ twoDigits (round (q * 100)).natAbs)
        ∧ (twoDigits (round (q * 100)).natAbs).length = 2) := by
  refine ⟨?_, ?_, ?_, ?_, toFixed2_zero, ?_⟩
  · intro h
    constructor <;> simp [screenBilledCell, pdfBilledCell, h]
  · intro h
    constructor <;> simp [screenPaidCell, pdfPaidCell, h]
  · rcases h : includeCustomerName f with hv | hv <;> simp [csvRow, h]
  · rcases h : includeCustomerName f with hv | hv <;> simp [csvRow, h]
  · intro q
    refine ⟨(if round (q * 100) < 0 then "-" else "")
      ++ toString ((round (q * 100)).natAbs / 100), ?_, rfl⟩
    simp only [toFixed2]

/-- Witness for C6: the payment transaction has zero billed and the order
transaction zero paid; both render the dash. -/
theorem zero_dash_views_literal_csv_witness :
    (screenBilledCell (paymentTransaction samplePayment) = "-"
      ∧ pdfBilledCell (paymentTransaction samplePayment) = "-")
    ∧ (screenPaidCell (orderTransaction sampleOrder) = "-"
      ∧ pdfPaidCell (orderTransaction sampleOrder) = "-") := by
  have h1 := (zero_dash_views_literal_csv sampleFilters
    (paymentTransaction samplePayment)).1 rfl
  have h2 := (zero_dash_views_literal_csv sampleFilters
    (orderTransaction sampleOrder)).2.1 rfl
  exact ⟨h1, h2⟩

/-- C7: the "today" quick period sets both bounds to the current date, "week"
to the start/end of the containing calendar week, "month" to the start/end of
the containing calendar month, each overriding any previously set bounds
(the result does not depend on the prior bounds); manually editing either
date input sets the period label to "custom" and leaves the other bound
unchanged. -/
theorem quick_period_and_custom_edit (today : Date) (f : Filters) (v : String) :
    handlePeriodChange today "today" f
      = { f with
            period := "today",
            dateFrom := formatYMD today,
            dateTo := formatYMD today }
    ∧ handlePeriodChange today "week" f
      = { f with
            period := "week",
            dateFrom := formatYMD (startOfWeek today),
            dateTo := formatYMD (endOfWeek today) }
    ∧ handlePeriodChange today "month" f
      = { f with
            period := "month",
            dateFrom := formatYMD (startOfMonth today),
            dateTo := formatYMD (endOfMonth today) }
    ∧ setDateFrom v f = { f with dateFrom := v, period := "custom" }
    ∧ (setDateFrom v f).dateTo = f.dateTo
    ∧ setDateTo v f = { f with dateTo := v, period := "custom" }
    ∧ (setDateTo v f).dateFrom = f.dateFrom := by
  refine ⟨?_, ?_, ?_, rfl, rfl, rfl, rfl⟩ <;> simp [handlePeriodChange]

/-- C8: the Customer History view shows exactly the orders whose `customerId`
equals the selected customer's id, stably sorted descending by parsed order
date (most recent first), each card carrying its line items and its
`totalAmount`. -/
theorem customer_history_descending (c : Customer) (os : List Order)
    (h : ∀ o ∈ os, (parseYMD o.orderDate).isSome = true) :
    List.Perm (customerOrders c os) (os.filter (fun o => o.customerId == c.id))
    ∧ (customerOrders c os).Pairwise
        (fun a b => dateKey b.orderDate ≤ dateKey a.orderDate)
    ∧ (∀ o ∈ customerOrders c os, o.customerId = c.id)
    ∧ (∀ o ∈ os, o.customerId = c.id → o ∈ customerOrders c os)
    ∧ orderHistory c os = (customerOrders c os).map renderOrderCard
    ∧ (∀ o : Order,
        (renderOrderCard o).totalLine = "Order Total: ₹" ++ toFixed2 o.totalAmount
        ∧ (renderOrderCard o).itemRows = o.items.map itemLine) := by
  refine ⟨List.mergeSort_perm _ _, ?_, ?_, ?_, rfl, fun o => ⟨rfl, rfl⟩⟩
  · have hs := List.sorted_mergeSort orderDateGe_trans orderDateGe_total
      (os.filter (fun o => o.customerId == c.id))
    exact hs.imp (by intro a b hab; simpa [orderDateGe] using hab)
  · intro o ho
    have hmem : o ∈ os.filter (fun o => o.customerId == c.id) :=
      List.mem_mergeSort.mp ho
    exact eq_of_beq (List.mem_filter.mp hmem).2
  · intro o ho hcid
    exact List.mem_mergeSort.mpr (List.mem_filter.mpr ⟨ho, by simp [hcid]⟩)

/-- Witness for C8 at a concrete customer owning one order. -/
theorem customer_history_descending_witness :
    List.Perm (customerOrders sampleCustomer [sampleOrder])
      ([sampleOrder].filter (fun o => o.customerId == sampleCustomer.id))
    ∧ sampleOrder ∈ customerOrders sampleCustomer [sampleOrder] := by
  have h := customer_history_descending sampleCustomer [sampleOrder] (by decide)
  exact ⟨h.1, h.2.2.2.1 sampleOrder (by simp) rfl⟩

/-- C9: when the filter window yields zero orders and zero payments, the
transaction list is empty, the page renders the explicit "No transactions
found" state, and the three summary cards display 0.00 billed, 0.00 paid and
0.00 pending. -/
theorem empty_window_empty_state (f : Filters) (os : List Order) (ps : List Payment)
    (ho : getFilteredOrders (filterParams f) os = [])
    (hp : getFilteredPayments (filterParams f) ps = []) :
    transactions (getFilteredOrders (filterParams f) os)
        (getFilteredPayments (filterParams f) ps) = []
    ∧ transactionsSection f (transactions (getFilteredOrders (filterParams f) os)
        (getFilteredPayments (filterParams f) ps))
      = TableView.emptyState "No transactions found"
          "Try adjusting your filters to see results"
    ∧ summaryCards (transactions (getFilteredOrders (filterParams f) os)
        (getFilteredPayments (filterParams f) ps))
      = ("₹0.00", "₹0.00", "₹0.00") := by
  rw [ho, hp]
  have h0 : transactions ([] : List Order) ([] : List Payment) = [] := by
    simp [transactions, combinedTransactions]
  refine ⟨h0, ?_, ?_⟩
  · rw [h0]
    rfl
  · rw [h0]
    have hb : totalBilled ([] : List Transaction) = 0 := rfl
    have hq : totalPaid ([] : List Transaction) = 0 := rfl
    simp only [summaryCards, hb, hq, sub_zero, toFixed2_zero]
    rfl

/-- Witness for C9 at a concrete filter over an empty data store. -/
theorem empty_window_empty_state_witness :
    transactions (getFilteredOrders (filterParams sampleFilters) [])
        (getFilteredPayments (filterParams sampleFilters) []) = []
    ∧ summaryCards (transactions (getFilteredOrders (filterParams sampleFilters) [])
        (getFilteredPayments (filterParams sampleFilters) []))
      = ("₹0.00", "₹0.00", "₹0.00") := by
  have h := empty_window_empty_state sampleFilters [] [] rfl rfl
  exact ⟨h.1, h.2.2⟩

/-- C10: in the table and the PDF body the billed (resp. paid) cell shows the
formatted amount exactly when the amount is strictly positive and the
placeholder dash otherwise, so every order transaction shows a dash in its
Paid column, every payment transaction a dash in its Billed column, and a
negative amount renders as the dash rather than a negative figure. -/
theorem amount_cells_dash_iff_positive (tx : Transaction)
    (os : List Order) (ps : List Payment) :
    (0 < tx.billed → screenBilledCell tx = "₹" ++ toFixed2 tx.billed
        ∧ pdfBilledCell tx = "₹" ++ toFixed2 tx.billed)
    ∧ (0 < tx.paid → screenPaidCell tx = "₹" ++ toFixed2 tx.paid
        ∧ pdfPaidCell tx = "₹" ++ toFixed2 tx.paid)
    ∧ (screenBilledCell tx = "-" ↔ ¬0 < tx.billed)
    ∧ (pdfBilledCell tx = "-" ↔ ¬0 < tx.billed)
    ∧ (screenPaidCell tx = "-" ↔ ¬0 < tx.paid)
    ∧ (pdfPaidCell tx = "-" ↔ ¬0 < tx.paid)
    ∧ (tx.billed < 0 → screenBilledCell tx = "-" ∧ pdfBilledCell tx = "-")
    ∧ (∀ t ∈ transactions os ps, t.type = TxType.order →
        screenPaidCell t = "-" ∧ pdfPaidCell t = "-")
    ∧ (∀ t ∈ transactions os ps, t.type = TxType.payment →
        screenBilledCell t = "-" ∧ pdfBilledCell t = "-") := by
  have hib : screenBilledCell tx = "-" ↔ ¬0 < tx.billed := by
    unfold screenBilledCell
    by_cases h : 0 < tx.billed <;> simp [h, rupee_ne_dash]
  have hpb : pdfBilledCell tx = "-" ↔ ¬0 < tx.billed := by
    unfold pdfBilledCell
    by_cases h : 0 < tx.billed <;> simp [h, rupee_ne_dash]
  have hip : screenPaidCell tx = "-" ↔ ¬0 < tx.paid := by
    unfold screenPaidCell
    by_cases h : 0 < tx.paid <;> simp [h, rupee_ne_dash]
  have hpp : pdfPaidCell tx = "-" ↔ ¬0 < tx.paid := by
    unfold pdfPaidCell
    by_cases h : 0 < tx.paid <;> simp [h, rupee_ne_dash]
  refine ⟨?_, ?_, hib, hpb, hip, hpp, ?_, ?_, ?_⟩
  · intro h
    constructor <;> simp [screenBilledCell, pdfBilledCell, h]
  · intro h
    constructor <;> simp [screenPaidCell, pdfPaidCell, h]
  · intro h
    constructor <;> simp [screenBilledCell, pdfBilledCell, not_lt.mpr (le_of_lt h)]
  · intro t ht htype
    rcases List.mem_append.mp (List.mem_mergeSort.mp ht) with hmo | hmp
    · obtain ⟨o, _, rfl⟩ := List.mem_map.mp hmo
      constructor <;> simp [screenPaidCell, pdfPaidCell, orderTransaction]
    · obtain ⟨p, _, rfl⟩ := List.mem_map.mp hmp
      simp [paymentTransaction] at htype
  · intro t ht htype
    rcases List.mem_append.mp (List.mem_mergeSort.mp ht) with hmo | hmp
    · obtain ⟨o, _, rfl⟩ := List.mem_map.mp hmo
      simp [orderTransaction] at htype
    · obtain ⟨p, _, rfl⟩ := List.mem_map.mp hmp
      constructor <;> simp [screenBilledCell, pdfBilledCell, paymentTransaction]

/-- Witness for C10: the concrete order transaction (billed 100, paid 0) and
payment transaction (billed 0, paid 60) render amount and dash accordingly. -/
theorem amount_cells_dash_iff_positive_witness :
    (screenBilledCell (orderTransaction sampleOrder)
      = "₹" ++ toFixed2 (orderTransaction sampleOrder).billed)
    ∧ screenPaidCell (orderTransaction sampleOrder) = "-"
    ∧ screenBilledCell (paymentTransaction samplePayment) = "-" := by
  have h1 := amount_cells_dash_iff_positive
    (orderTransaction sampleOrder) [sampleOrder] [samplePayment]
  have h2 := amount_cells_dash_iff_positive
    (paymentTransaction samplePayment) [sampleOrder] [samplePayment]
  have hmem : orderTransaction sampleOrder ∈
      transactions [sampleOrder] [samplePayment] :=
    List.mem_mergeSort.mpr (by simp [combinedTransactions])
  refine ⟨?_, ?_, ?_⟩
  · exact (h1.1 (by norm_num [orderTransaction, sampleOrder])).1
  · exact (h1.2.2.2.2.2.2.2.1 (orderTransaction sampleOrder) hmem rfl).1
  · exact (h2.2.2.1).mpr (by norm_num [paymentTransaction, samplePayment])

end Jaygogams
